import Mathlib

/-!
Verification development for the case-retrieval and calibration subsystem of
`streamlit_app.py` (MonitorAI).  The Python functions `load_gabarito_embeddings`,
`find_similar_cases` and `get_gabarito_guidance` are shallowly embedded below.

Modelling conventions:
* Python floats are modelled as exact rationals (`ℚ`).  The IEEE-754 square
  root used inside `sklearn.metrics.pairwise.cosine_similarity` is modelled by
  `ratSqrt`, a rational approximation with absolute error below `10 ^ (-12)`,
  which is far finer than any quantity the spec observes (the spec only ever
  observes a percentage rounded to one decimal place, a granularity of
  `5 * 10 ^ (-4)` in similarity units).
* `np.argsort` is modelled as an ascending argsort that resolves exact ties
  by the smaller index first.  numpy's default `kind='quicksort'` (introsort)
  is not stable, so the program fixes no particular order among tied entries
  in general; a deterministic model has to pick one.  No theorem below
  depends on the modelled tie order except on two-element similarity arrays,
  where numpy's small-array insertion sort deterministically yields `[0, 1]`
  for equal keys, exactly as the model does.  The Python slice `[-top_k:]`
  is modelled by `pyTailSlice`, including the `top_k = 0` corner case where
  Python's `[-0:]` is the whole list.
* Exceptions raised by numpy/sklearn on ragged or dimension-mismatched inputs
  (`np.array` of an inhomogeneous list, `cosine_similarity` of incompatible
  matrices) are modelled by the `Except.error` branch of `find_similar_cases`.
* External effects (reading the pickle snapshot, the OpenAI embeddings call,
  Streamlit UI messages) are modelled as explicit inputs/outputs: the snapshot
  read outcome is an input of `load_gabarito_embeddings`, the embedding-service
  outcome is an input of `get_gabarito_guidance`, and emitted UI messages are
  returned as data.
-/

/-! ## Rational square root (model of IEEE-754 `sqrt` on doubles) -/

/-- One Newton step loop for integer square root, with explicit fuel so that
the kernel can evaluate it.  Computes a value `g` with `g * g ≤ n` once the
iteration stabilises (the fuel is ample for every number appearing here). -/
def isqrtGo (n : ℕ) : ℕ → ℕ → ℕ
  | 0, g => g
  | fuel + 1, g =>
    let g2 := (g + n / g) / 2
    if g2 < g then isqrtGo n fuel g2 else g

/-- Integer square root (floor), fuel-based Newton iteration. -/
def isqrt (n : ℕ) : ℕ :=
  if n ≤ 1 then n else isqrtGo n 200 (n / 2 + 1)

/-- Rational approximation of the square root, used to model the IEEE double
`sqrt` inside `cosine_similarity`.  For `x = n / d ≥ 0` it returns
`⌊sqrt (n * d) * 10 ^ 12⌋ / (d * 10 ^ 12)`, an approximation from below with
absolute error `< 10 ^ (-12)`. -/
def ratSqrt (x : ℚ) : ℚ :=
  if x ≤ 0 then 0
  else
    let n := x.num.toNat
    let d := x.den
    ((isqrt (n * d * 10 ^ 24) : ℚ)) / ((d * 10 ^ 12 : ℕ) : ℚ)

/-! ## Vectors and cosine similarity -/

/-- Dot product of two vectors, `np.dot` restricted to equal-length inputs
(the only way it is reached in `find_similar_cases`). -/
def dotProd (a b : List ℚ) : ℚ :=
  (List.zipWith (fun x y => x * y) a b).sum

/-- Euclidean norm of a vector (through the `ratSqrt` model of `sqrt`). -/
def l2norm (a : List ℚ) : ℚ :=
  ratSqrt (dotProd a a)

/-- sklearn's `normalize` replaces a zero norm by 1 before dividing, so a
zero vector gets similarity 0 instead of a division by zero. -/
def safeNorm (a : List ℚ) : ℚ :=
  if l2norm a = 0 then 1 else l2norm a

/-- Cosine similarity of two vectors as computed by
`sklearn.metrics.pairwise.cosine_similarity` (row-normalised dot product,
with the zero-norm guard of sklearn's `normalize`). -/
def cosineSim (a b : List ℚ) : ℚ :=
  dotProd a b / (safeNorm a * safeNorm b)

/-! ## Data model

A reference case is one entry of the pickled `gabarito_embeddings.pkl` list:
a dict with keys `id`, `embedding`, and `metadata`, where `metadata` carries
`pontuacao_esperada` (the validated total score) and `checklist` (an
insertion-ordered mapping from criterion key to boolean, modelled as an
association list). -/

structure Metadata where
  pontuacao_esperada : Int
  checklist : List (String × Bool)
deriving DecidableEq, Inhabited

structure ReferenceCase where
  id : String
  embedding : List ℚ
  metadata : Metadata
deriving DecidableEq, Inhabited

/-- One element of the list returned by `find_similar_cases`: the dict
`{'similarity_score': ..., 'case_id': ..., 'metadata': ...}`. -/
structure RankedMatch where
  similarity_score : ℚ
  case_id : String
  metadata : Metadata
deriving DecidableEq, Inhabited

/-! ## `find_similar_cases` -/

/-- The comparison used to model `np.argsort` on the similarity list:
ascending by value, with exact ties resolved by ascending index (the model's
deterministic choice; see the note on `argsort`). -/
def argRel (sims : List ℚ) (i j : ℕ) : Prop :=
  sims.getD i 0 < sims.getD j 0 ∨ (sims.getD i 0 = sims.getD j 0 ∧ i ≤ j)

instance argRelDecidable (sims : List ℚ) : DecidableRel (argRel sims) := fun i j => by
  unfold argRel
  infer_instance

instance argRelTotal (sims : List ℚ) : IsTotal ℕ (argRel sims) := by
  constructor
  intro i j
  rcases lt_trichotomy (sims.getD i 0) (sims.getD j 0) with h | h | h
  · exact Or.inl (Or.inl h)
  · rcases Nat.le_total i j with hij | hij
    · exact Or.inl (Or.inr ⟨h, hij⟩)
    · exact Or.inr (Or.inr ⟨h.symm, hij⟩)
  · exact Or.inr (Or.inl h)

instance argRelTrans (sims : List ℚ) : IsTrans ℕ (argRel sims) := by
  constructor
  intro a b c hab hbc
  rcases hab with hab | ⟨hab, hab2⟩
  · rcases hbc with hbc | ⟨hbc, _⟩
    · exact Or.inl (hab.trans hbc)
    · exact Or.inl (hbc ▸ hab)
  · rcases hbc with hbc | ⟨hbc, hbc2⟩
    · exact Or.inl (hab ▸ hbc)
    · exact Or.inr ⟨hab.trans hbc, hab2.trans hbc2⟩

/-- `np.argsort(sims)`: the indices `0 .. sims.length - 1` sorted ascending by
similarity value.  Exact ties are resolved by the smaller index first; this
is a modelling choice, since numpy's default unstable quicksort fixes no tie
order in general.  Only the two-element tie behaviour, which numpy's
small-array insertion sort does fix as `[0, 1]`, is relied on by a theorem
below. -/
def argsort (sims : List ℚ) : List ℕ :=
  List.insertionSort (argRel sims) (List.range sims.length)

/-- Python's tail slice `xs[-k:]`.  For `k ≥ 1` this is the last
`min k xs.length` elements; for `k = 0` Python evaluates `xs[-0:] = xs[0:]`,
the whole list. -/
def pyTailSlice (k : ℕ) (xs : List α) : List α :=
  if k = 0 then xs else xs.drop (xs.length - k)

/-- `np.argsort(similarities)[-top_k:][::-1]` from line 40 of the source. -/
def top_indices (sims : List ℚ) (top_k : ℕ) : List ℕ :=
  (pyTailSlice top_k (argsort sims)).reverse

/-- The similarity row `cosine_similarity(query_vector, gabarito_embeddings)[0]`:
one cosine similarity per store entry, in store order. -/
def simsOf (query : List ℚ) (data : List ReferenceCase) : List ℚ :=
  data.map fun item => cosineSim query item.embedding

/-- The dict appended for one selected index `idx` (lines 43-48 of the
source): `similarities[idx]`, `embeddings_data[idx]['id']`,
`embeddings_data[idx]['metadata']`. -/
def mkRanked (query : List ℚ) (data : List ReferenceCase) (idx : ℕ) : RankedMatch :=
  { similarity_score := (simsOf query data).getD idx 0
    case_id := (data.getD idx default).id
    metadata := (data.getD idx default).metadata }

/-- Shallow embedding of `find_similar_cases(query_embedding, embeddings_data,
top_k)`.  The `Except.error` branch models the `ValueError` raised by
`np.array` on a ragged embedding list or by `cosine_similarity` on
incompatible dimensions; it is taken exactly when some store embedding has a
length different from the query's. -/
def find_similar_cases (query_embedding : List ℚ)
    (embeddings_data : Option (List ReferenceCase)) (top_k : ℕ) :
    Except String (List RankedMatch) :=
  match embeddings_data with
  | none => Except.ok []
  | some data =>
    if data.length = 0 then Except.ok []
    else if data.all fun item => item.embedding.length = query_embedding.length then
      Except.ok ((top_indices (simsOf query_embedding data) top_k).map
        (mkRanked query_embedding data))
    else Except.error ("ValueError: incompatible embedding dimensions")

/-! ## Percentage formatting

`f"{x:.1f}"` on the similarity percentage.  Python rounds the double to one
decimal digit with round-half-to-even; the half case is unreachable at the
precision the claims observe, and values in `(-0.05, 0)` (which Python would
print as `-0.0`) never arise for the quantities formatted here. -/

/-- Floor of a rational as an integer (`Int.fdiv` is floor division). -/
def ratFloor (q : ℚ) : ℤ :=
  Int.fdiv q.num (q.den : ℤ)

/-- Round to the nearest integer, halves to the even neighbour. -/
def roundHalfEven (x : ℚ) : ℤ :=
  let f := ratFloor x
  let frac := x - (f : ℚ)
  if frac < 1 / 2 then f
  else if 1 / 2 < frac then f + 1
  else if f % 2 = 0 then f else f + 1

/-- `f"{x:.1f}"`: one decimal place, rounding half to even. -/
def format1f (x : ℚ) : String :=
  let n := roundHalfEven (x * 10)
  let a := n.natAbs
  (if n < 0 then "-" else "") ++ toString (a / 10) ++ "." ++ toString (a % 10)

/-! ## `get_gabarito_guidance`: the calibration formatter portion -/

/-- The fixed 12-key criterion-to-label table (lines 71-84 of the source). -/
def checklist_mapping : List (String × String) :=
  [("1_atendimento_saudacao", "1. Atendimento e saudação (10 pts)"),
   ("2_dados_cadastro", "2. Coleta de dados cadastrais (6 pts)"),
   ("3_script_lgpd", "3. Script LGPD (2 pts)"),
   ("4_tecnica_eco", "4. Técnica do Eco (5 pts)"),
   ("5_escuta_atenta", "5. Escuta atenta (3 pts)"),
   ("6_compreensao", "6. Compreensão da solicitação (5 pts)"),
   ("7_confirmacao_dano", "7. Confirmação do dano (10 pts)"),
   ("8_cidade_loja", "8. Cidade e loja (10 pts)"),
   ("9_comunicacao_eficaz", "9. Comunicação eficaz (5 pts)"),
   ("10_conduta_acolhedora", "10. Conduta acolhedora (4 pts)"),
   ("11_script_encerramento", "11. Script de encerramento (15 pts)"),
   ("12_pesquisa_satisfacao", "12. Pesquisa de satisfação (6 pts)")]

/-- One checklist line (lines 94-96 of the source):
`checklist_mapping.get(criterio, criterio)` falls back to the raw key. -/
def checklistLine (entry : String × Bool) : String :=
  "  • " ++ (checklist_mapping.lookup entry.1).getD entry.1 ++ ": " ++
    (if entry.2 then "✓ SIM" else "✗ NÃO") ++ "\n"

/-- The header line of one similar-case block (line 90 of the source), for the
1-based rank `i`. -/
def headerLine (i : ℕ) (c : RankedMatch) : String :=
  "CASO SIMILAR #" ++ toString i ++ " - ID " ++ c.case_id ++
    " (Similaridade: " ++ format1f (c.similarity_score * 100) ++ "%):\n"

/-- Concatenation of a list of strings; the Python code accumulates with
repeated `+=`, whose final value equals this right fold. -/
def concatAll : List String → String
  | [] => ""
  | s :: rest => s ++ concatAll rest

/-- The full text block for one similar case (lines 86-98 of the source). -/
def caseBlock (i : ℕ) (c : RankedMatch) : String :=
  headerLine i c ++
    ("Pontuação correta: " ++ toString c.metadata.pontuacao_esperada ++ "/81 pontos\n") ++
    "Respostas corretas validadas:\n" ++
    concatAll (c.metadata.checklist.map checklistLine) ++
    "\n"

/-- Lines 68-69 of the source. -/
def guidanceHeader : String :=
  "\n\n=== REFERÊNCIA DO GABARITO VALIDADO ===\n" ++
    "Casos similares identificados (use como calibração de rigor):\n\n"

/-- The fixed instructional trailer (lines 100-106 of the source). -/
def calibrationTrailer : String :=
  "INSTRUÇÕES CRÍTICAS DE CALIBRAÇÃO:\n" ++
    "1. Use estes casos como PADRÃO DE RIGOR - mantenha o mesmo nível de exigência\n" ++
    "2. Avalie a transcrição atual de forma INDEPENDENTE mas CONSISTENTE com o gabarito\n" ++
    "3. Se houver dúvida entre SIM/NÃO, compare com casos similares acima\n" ++
    "4. A pontuação final deve refletir APENAS os critérios que foram REALMENTE cumpridos\n" ++
    "5. Seja RIGOROSO como demonstrado nos casos validados\n" ++
    "=== FIM DA REFERÊNCIA DO GABARITO ===\n"

/-- The formatting portion of `get_gabarito_guidance` (lines 65-106): returns
`""` on an empty match list (the `if not similar_cases: return ""` early exit)
and otherwise the header, one block per match enumerated from 1, and the
trailer. -/
def formatGuidance (similar_cases : List RankedMatch) : String :=
  if similar_cases.isEmpty then ""
  else
    guidanceHeader ++
      concatAll ((List.enumFrom 1 similar_cases).map fun p => caseBlock p.1 p.2) ++
      calibrationTrailer

/-- Observable outcome of one `get_gabarito_guidance` call: the returned
calibration block, whether the external embedding service was invoked, and
the `st.warning` message emitted by the `except` handler, if any. -/
structure GuidanceOutcome where
  text : String
  embedderCalled : Bool
  warning : Option String
deriving DecidableEq, Inhabited

/-- Shallow embedding of `get_gabarito_guidance(transcript_text)` (lines
52-112).  The process-global `GABARITO_EMBEDDINGS` is passed explicitly, and
the outcome of the external `client.embeddings.create` call is an explicit
input (`Except.error` = the service raised).  The `except Exception` handler
catches both embedding-service failures and ranking failures, emits a warning
and returns the empty string. -/
def get_gabarito_guidance (gabarito_embeddings : Option (List ReferenceCase))
    (embedResult : Except String (List ℚ)) : GuidanceOutcome :=
  match gabarito_embeddings with
  | none => { text := "", embedderCalled := false, warning := none }
  | some data =>
    match embedResult with
    | Except.error e =>
      { text := ""
        embedderCalled := true
        warning := some ("⚠️ Erro ao buscar casos similares: " ++ e) }
    | Except.ok current_embedding =>
      match find_similar_cases current_embedding (some data) 3 with
      | Except.error e =>
        { text := ""
          embedderCalled := true
          warning := some ("⚠️ Erro ao buscar casos similares: " ++ e) }
      | Except.ok similar_cases =>
        { text := formatGuidance similar_cases, embedderCalled := true, warning := none }

/-! ## `load_gabarito_embeddings` -/

/-- Outcome of attempting to read and unpickle `gabarito_embeddings.pkl`:
the file is missing (`FileNotFoundError`), the read or unpickle raised some
other exception with message `e`, or it produced a list of reference cases. -/
inductive SnapshotOutcome where
  | missing : SnapshotOutcome
  | corrupt : String → SnapshotOutcome
  | loaded : List ReferenceCase → SnapshotOutcome
deriving DecidableEq, Inhabited

/-- A Streamlit UI message: `st.success`, `st.warning` or `st.error`. -/
inductive UiMessage where
  | success : String → UiMessage
  | warning : String → UiMessage
  | errorMsg : String → UiMessage
deriving DecidableEq, Inhabited

/-- Shallow embedding of `load_gabarito_embeddings()` (lines 17-29): the
snapshot read outcome is an explicit input; the result is the store (`none`
models Python's `None`) paired with the UI message the function emits.  No
branch raises. -/
def load_gabarito_embeddings : SnapshotOutcome → Option (List ReferenceCase) × UiMessage
  | SnapshotOutcome.loaded embeddings =>
    (some embeddings,
      UiMessage.success ("✅ Gabarito carregado: " ++ toString embeddings.length ++
        " casos de referência"))
  | SnapshotOutcome.missing =>
    (none,
      UiMessage.warning ("⚠️ Arquivo gabarito_embeddings.pkl não encontrado. Sistema funcionando sem referência."))
  | SnapshotOutcome.corrupt e =>
    (none, UiMessage.errorMsg ("❌ Erro ao carregar gabarito: " ++ e))

/-! ## String containment and occurrence counting -/

/-- `pat` occurs somewhere inside `s` (Python's `pat in s`). -/
def strContains (s pat : String) : Prop :=
  pat.data <:+: s.data

/-- Boolean test: `pat` is a prefix of `s`. -/
def isPrefB : List Char → List Char → Bool
  | [], _ => true
  | _ :: _, [] => false
  | a :: as, b :: bs => a == b && isPrefB as bs

/-- Number of occurrences of `pat` in `s` (number of positions at which
`pat` starts, `s.count(pat)` counted with overlaps). -/
def countOccs (pat s : List Char) : ℕ :=
  s.tails.countP fun t => isPrefB pat t

instance strContainsDecidable (s pat : String) : Decidable (strContains s pat) := by
  unfold strContains
  infer_instance

/-! ## Helper lemmas about the argsort-based selection -/

theorem argsort_sorted (sims : List ℚ) : List.Sorted (argRel sims) (argsort sims) :=
  List.sorted_insertionSort _ _

theorem argsort_perm (sims : List ℚ) : (argsort sims).Perm (List.range sims.length) :=
  List.perm_insertionSort _ _

theorem argsort_length (sims : List ℚ) : (argsort sims).length = sims.length := by
  rw [(argsort_perm sims).length_eq, List.length_range]

theorem mem_argsort {sims : List ℚ} {i : ℕ} : i ∈ argsort sims ↔ i < sims.length := by
  rw [(argsort_perm sims).mem_iff, List.mem_range]

theorem pyTailSlice_sublist (k : ℕ) (xs : List α) : (pyTailSlice k xs).Sublist xs := by
  unfold pyTailSlice
  split
  · exact List.Sublist.refl xs
  · exact List.drop_sublist _ xs

theorem pyTailSlice_length (k : ℕ) (xs : List α) (hk : k ≠ 0) :
    (pyTailSlice k xs).length = min k xs.length := by
  unfold pyTailSlice
  rw [if_neg hk, List.length_drop]
  omega

/-- The selected index list, read left to right, is descending in the argsort
order: for positions `p < q`, the index at `q` relates to the index at `p`. -/
theorem top_indices_pairwise (sims : List ℚ) (k : ℕ) :
    List.Pairwise (fun a b => argRel sims b a) (top_indices sims k) := by
  unfold top_indices
  rw [List.pairwise_reverse]
  exact List.Pairwise.sublist (pyTailSlice_sublist k _) (argsort_sorted sims)

theorem simsOf_length (query : List ℚ) (data : List ReferenceCase) :
    (simsOf query data).length = data.length := by
  unfold simsOf
  rw [List.length_map]

/-- Inversion for `find_similar_cases` on a present store: any successfully
returned list is exactly the `top_indices` selection mapped through
`mkRanked`. -/
theorem find_ok_eq (query : List ℚ) (data : List ReferenceCase) (k : ℕ)
    (ms : List RankedMatch)
    (h : find_similar_cases query (some data) k = Except.ok ms) :
    ms = (top_indices (simsOf query data) k).map (mkRanked query data) := by
  simp only [find_similar_cases] at h
  by_cases h0 : data.length = 0
  · rw [if_pos h0] at h
    injection h with h
    have hd : data = [] := List.length_eq_zero.mp h0
    subst hd
    rw [← h]
    unfold top_indices argsort simsOf pyTailSlice
    simp
  · rw [if_neg h0] at h
    by_cases hall : (data.all fun item => item.embedding.length = query.length) = true
    · rw [if_pos hall] at h
      injection h with h
      exact h.symm
    · rw [if_neg hall] at h
      exact absurd h (fun hh => Except.noConfusion hh)

/-! ## Sample data used by witnesses and counterexamples -/

def sampleChecklistFull : List (String × Bool) :=
  [("1_atendimento_saudacao", true), ("2_dados_cadastro", true),
   ("3_script_lgpd", false), ("4_tecnica_eco", true),
   ("5_escuta_atenta", true), ("6_compreensao", true),
   ("7_confirmacao_dano", false), ("8_cidade_loja", true),
   ("9_comunicacao_eficaz", true), ("10_conduta_acolhedora", true),
   ("11_script_encerramento", false), ("12_pesquisa_satisfacao", true)]

def sampleMetaA : Metadata := ⟨75, sampleChecklistFull⟩

def sampleMetaB : Metadata := ⟨40, [("1_atendimento_saudacao", false)]⟩

/-- The spec's end-to-end example store: case A with embedding `[1,0]` and
expected score 75, case B with embedding `[0,1]` and expected score 40. -/
def exampleStore : List ReferenceCase :=
  [⟨"A", [1, 0], sampleMetaA⟩, ⟨"B", [0, 1], sampleMetaB⟩]

/-- The single match returned for query `[0.9, 0.1]` with `top_k = 1`. -/
def exampleTopMatch : RankedMatch := mkRanked [9/10, 1/10] exampleStore 0

/-- Two store entries with identical embeddings, hence exactly tied
similarity scores against any query. -/
def tieCaseA : ReferenceCase := ⟨"A", [1, 0], sampleMetaA⟩

def tieCaseB : ReferenceCase := ⟨"B", [1, 0], sampleMetaB⟩

def singleCaseC : ReferenceCase := ⟨"C", [1], ⟨50, []⟩⟩

def selStore : List ReferenceCase := [⟨"C1", [1], ⟨50, []⟩⟩, ⟨"C0", [0], ⟨30, []⟩⟩]

def raggedCase : ReferenceCase := ⟨"R", [1, 2], ⟨60, []⟩⟩

def sampleMatchW : RankedMatch := ⟨0, "W", ⟨70, [("crit_x", true)]⟩⟩

/-- A well-formed match (all checklist keys among the fixed 12) whose case id
`"SIM"` also occurs in the fixed text of the calibration block. -/
def sampleMatchSIM : RankedMatch := ⟨1/2, "SIM", ⟨70, sampleChecklistFull⟩⟩

/-! ## Claims -/

set_option maxRecDepth 100000

/-- **C4**: for every query vector and every `k`, ranking against an absent
store (`None`) or a zero-entry store returns the empty sequence and raises no
error (the guard on lines 34-35 returns `[]` before any numpy call). -/
theorem empty_store_returns_empty (query : List ℚ) (k : ℕ) :
    find_similar_cases query none k = Except.ok [] ∧
      find_similar_cases query (some []) k = Except.ok [] :=
  ⟨rfl, rfl⟩

/-- **C5**: for every present store, if the external embedding call raises,
`get_gabarito_guidance` catches the failure, emits the warning
`⚠️ Erro ao buscar casos similares: ...`, and returns the empty string
instead of propagating the error. -/
theorem embedding_failure_degrades (data : List ReferenceCase) (e : String) :
    get_gabarito_guidance (some data) (Except.error e) =
      { text := ""
        embedderCalled := true
        warning := some ("⚠️ Erro ao buscar casos similares: " ++ e) } :=
  rfl

/-- **C7**: the loader returns `None` with a warning (no raise) on a missing
snapshot, and reports an error message and falls back to `None` on a corrupt
snapshot. -/
theorem loader_degrades_gracefully (e : String) :
    load_gabarito_embeddings SnapshotOutcome.missing =
        (none, UiMessage.warning
          ("⚠️ Arquivo gabarito_embeddings.pkl não encontrado. Sistema funcionando sem referência.")) ∧
      load_gabarito_embeddings (SnapshotOutcome.corrupt e) =
        (none, UiMessage.errorMsg ("❌ Erro ao carregar gabarito: " ++ e)) :=
  ⟨rfl, rfl⟩

/-- **C10**: with an absent store (`GABARITO_EMBEDDINGS is None`),
`get_gabarito_guidance` returns the empty string immediately and the external
embedding service is never invoked — the result is independent of the
embedder outcome and records `embedderCalled = false`. -/
theorem absent_store_skips_embedder (embedResult : Except String (List ℚ)) :
    get_gabarito_guidance none embedResult =
      { text := "", embedderCalled := false, warning := none } :=
  rfl

/-- **C1**: every ranking result returned by `find_similar_cases` is ordered
descending by similarity score: for every valid index `i`,
`matches[i].similarity_score ≥ matches[i+1].similarity_score`, so the most
similar entry is at index 0. -/
theorem ranking_sorted_descending (query : List ℚ) (data : List ReferenceCase)
    (k : ℕ) (ms : List RankedMatch)
    (h : find_similar_cases query (some data) k = Except.ok ms)
    (i : ℕ) (hi : i + 1 < ms.length) :
    (ms.get ⟨i + 1, hi⟩).similarity_score ≤
      (ms.get ⟨i, Nat.lt_of_succ_lt hi⟩).similarity_score := by
  have hms := find_ok_eq query data k ms h
  subst hms
  have hp : List.Pairwise (fun a b => b.similarity_score ≤ a.similarity_score)
      ((top_indices (simsOf query data) k).map (mkRanked query data)) := by
    refine List.Pairwise.map _ ?_ (top_indices_pairwise (simsOf query data) k)
    intro a b hab
    rcases hab with h1 | ⟨h1, _⟩
    · exact le_of_lt h1
    · exact le_of_eq h1
  exact List.pairwise_iff_get.mp hp ⟨i, Nat.lt_of_succ_lt hi⟩ ⟨i + 1, hi⟩
    (Nat.lt_succ_self i)

/-- Witness for C1 at the example store with `top_k = 3`. -/
theorem ranking_sorted_descending_witness :
    (([mkRanked [9/10, 1/10] exampleStore 0,
        mkRanked [9/10, 1/10] exampleStore 1].get ⟨1, by simp⟩).similarity_score ≤
      ([mkRanked [9/10, 1/10] exampleStore 0,
        mkRanked [9/10, 1/10] exampleStore 1].get ⟨0, by simp⟩).similarity_score) :=
  ranking_sorted_descending [9/10, 1/10] exampleStore 3
    [mkRanked [9/10, 1/10] exampleStore 0, mkRanked [9/10, 1/10] exampleStore 1]
    (by with_unfolding_all rfl) 0 (by simp)

/-- **C2, counterexample**: a store whose two entries have identical
embeddings (hence exactly tied similarity scores, here both 1) against query
`[1, 0]`.  The ranking places case `"B"` (store index 1) first, not case
`"A"` (store index 0): the claim that the lower original store index wins
ties is false. -/
theorem tie_break_lower_index_counterexample :
    find_similar_cases [1, 0] (some [tieCaseA, tieCaseB]) 2 =
        Except.ok [⟨1, "B", sampleMetaB⟩, ⟨1, "A", sampleMetaA⟩] ∧
      simsOf [1, 0] [tieCaseA, tieCaseB] = [1, 1] := by
  constructor
  · with_unfolding_all rfl
  · with_unfolding_all rfl

/-- **C2, amended**: the lower-index-first rule does not hold.  What the
program does fix: for a store of exactly two entries whose similarity scores
against the query are exactly equal, the ranking returns the entry with the
**higher** original store index first (a two-element argsort of equal keys is
`[0, 1]`, and `[::-1]` reverses it).  For larger stores numpy's default
unstable argsort guarantees no particular order among tied entries. -/
theorem tie_break_two_entry_higher_index_first (query : List ℚ)
    (a b : ReferenceCase) (ms : List RankedMatch)
    (htie : cosineSim query a.embedding = cosineSim query b.embedding)
    (h : find_similar_cases query (some [a, b]) 2 = Except.ok ms) :
    ms = [mkRanked query [a, b] 1, mkRanked query [a, b] 0] := by
  have hms := find_ok_eq query [a, b] 2 ms h
  subst hms
  have hr : argRel (simsOf query [a, b]) 0 1 := Or.inr ⟨htie, by omega⟩
  have htop : top_indices (simsOf query [a, b]) 2 = [1, 0] := by
    unfold top_indices argsort pyTailSlice
    have hrange : List.range (simsOf query [a, b]).length = [0, 1] := by rfl
    rw [hrange]
    have hsort : List.insertionSort (argRel (simsOf query [a, b])) [0, 1] = [0, 1] := by
      simp only [List.insertionSort, List.orderedInsert]
      rw [if_pos hr]
    rw [hsort]
    norm_num
  rw [htop]
  rfl

/-- Witness for the amended C2 at the tied two-entry store. -/
theorem tie_break_two_entry_higher_index_first_witness :
    ([(⟨1, "B", sampleMetaB⟩ : RankedMatch), ⟨1, "A", sampleMetaA⟩] =
      [mkRanked [1, 0] [tieCaseA, tieCaseB] 1,
        mkRanked [1, 0] [tieCaseA, tieCaseB] 0]) :=
  tie_break_two_entry_higher_index_first [1, 0] tieCaseA tieCaseB
    [⟨1, "B", sampleMetaB⟩, ⟨1, "A", sampleMetaA⟩] (by with_unfolding_all rfl)
    (by with_unfolding_all rfl)

/-- **C3, counterexample**: with a one-entry store and `top_k = 0`, Python's
slice `[-0:]` is the whole array, so `find_similar_cases` returns 1 entry,
not `min 0 1 = 0` entries as the claim requires for every `k ≥ 0`. -/
theorem topk_zero_counterexample :
    find_similar_cases [1] (some [singleCaseC]) 0 =
        Except.ok [⟨1, "C", ⟨50, []⟩⟩] ∧
      ([(⟨1, "C", ⟨50, []⟩⟩ : RankedMatch)].length ≠ min 0 [singleCaseC].length) := by
  constructor
  · with_unfolding_all rfl
  · decide

/-- **C3, amended**: for every store and every `k ≥ 1`, a successful
`find_similar_cases` call returns exactly `min k N` entries, and each
returned entry's similarity is `≥` every non-selected entry's similarity; in
particular for `k > N` all `N` entries are returned with no padding and no
error.  (Only `k = 0` contradicts the original claim: Python's `[-0:]`
slice selects the whole array.) -/
theorem topk_correctness (query : List ℚ) (data : List ReferenceCase) (k : ℕ)
    (ms : List RankedMatch) (hk : 1 ≤ k)
    (h : find_similar_cases query (some data) k = Except.ok ms) :
    ms.length = min k data.length ∧
      ∀ i < data.length, i ∉ top_indices (simsOf query data) k →
        ∀ m ∈ ms, (simsOf query data).getD i 0 ≤ m.similarity_score := by
  have hms := find_ok_eq query data k ms h
  subst hms
  have hknz : k ≠ 0 := by omega
  constructor
  · rw [List.length_map]
    unfold top_indices
    rw [List.length_reverse, pyTailSlice_length _ _ hknz, argsort_length, simsOf_length]
  · intro i hi hnot m hm
    obtain ⟨idx, hidx, rfl⟩ := List.mem_map.mp hm
    have htop : top_indices (simsOf query data) k =
        (List.drop ((argsort (simsOf query data)).length - k)
          (argsort (simsOf query data))).reverse := by
      unfold top_indices pyTailSlice
      rw [if_neg hknz]
    rw [htop, List.mem_reverse] at hidx hnot
    have hiA : i ∈ argsort (simsOf query data) := by
      rw [mem_argsort, simsOf_length]
      exact hi
    have hitake : i ∈ List.take ((argsort (simsOf query data)).length - k)
        (argsort (simsOf query data)) := by
      rcases List.mem_append.mp
          (by rw [List.take_append_drop]; exact hiA :
            i ∈ List.take ((argsort (simsOf query data)).length - k)
                (argsort (simsOf query data)) ++
              List.drop ((argsort (simsOf query data)).length - k)
                (argsort (simsOf query data))) with h1 | h1
      · exact h1
      · exact absurd h1 hnot
    have hs : List.Pairwise (argRel (simsOf query data))
        (List.take ((argsort (simsOf query data)).length - k)
            (argsort (simsOf query data)) ++
          List.drop ((argsort (simsOf query data)).length - k)
            (argsort (simsOf query data))) := by
      rw [List.take_append_drop]
      exact argsort_sorted (simsOf query data)
    have hrel := (List.pairwise_append.mp hs).2.2 i hitake idx hidx
    rcases hrel with h1 | ⟨h1, _⟩
    · exact le_of_lt h1
    · exact le_of_eq h1

/-- Witness for the amended C3: two entries, `k = 1`, only the more similar
entry (store index 0) is returned and it dominates the non-selected one. -/
theorem topk_correctness_witness :
    ([mkRanked [1] selStore 0].length = min 1 selStore.length ∧
      ∀ i < selStore.length, i ∉ top_indices (simsOf [1] selStore) 1 →
        ∀ m ∈ [mkRanked [1] selStore 0],
          (simsOf [1] selStore).getD i 0 ≤ m.similarity_score) :=
  topk_correctness [1] selStore 1 [mkRanked [1] selStore 0] (by omega)
    (by with_unfolding_all rfl)

/-- **C8**: for every non-empty store in which some reference embedding has a
different number of elements than the query vector, the similarity
computation fails (numpy/sklearn raise, modelled by `Except.error`) rather
than silently returning wrong neighbours. -/
theorem dimension_mismatch_fails (query : List ℚ) (data : List ReferenceCase)
    (k : ℕ) (hbad : ∃ it ∈ data, it.embedding.length ≠ query.length) :
    find_similar_cases query (some data) k =
      Except.error ("ValueError: incompatible embedding dimensions") := by
  obtain ⟨it, hit, hlen⟩ := hbad
  have h0 : ¬ data.length = 0 := by
    rw [List.length_eq_zero]
    intro hd
    subst hd
    exact absurd hit (List.not_mem_nil it)
  have h1 : ¬ (data.all fun item =>
      item.embedding.length = query.length) = true := by
    rw [List.all_eq_true]
    intro hall
    exact hlen (of_decide_eq_true (hall it hit))
  simp only [find_similar_cases]
  rw [if_neg h0, if_neg h1]

/-- Witness for C8: a store entry with a 2-dimensional embedding against a
1-dimensional query. -/
theorem dimension_mismatch_fails_witness :
    find_similar_cases [1] (some [raggedCase]) 3 =
      Except.error ("ValueError: incompatible embedding dimensions") :=
  dimension_mismatch_fails [1] [raggedCase] 3 ⟨raggedCase, by decide, by decide⟩

/-! ## Helper lemmas about string containment -/

theorem strContains_self (s : String) : strContains s s :=
  ⟨[], [], by simp⟩

theorem strContains_append_left (s t : String) {p : String}
    (h : strContains s p) : strContains (s ++ t) p := by
  obtain ⟨u, v, huv⟩ := h
  exact ⟨u, v ++ t.data, by rw [String.data_append, ← huv]; simp⟩

theorem strContains_append_right (s t : String) {p : String}
    (h : strContains t p) : strContains (s ++ t) p := by
  obtain ⟨u, v, huv⟩ := h
  exact ⟨s.data ++ u, v, by rw [String.data_append, ← huv]; simp⟩

theorem strContains_trans {a b c : String} (h₁ : strContains a b)
    (h₂ : strContains b c) : strContains a c := by
  obtain ⟨u, v, huv⟩ := h₁
  obtain ⟨x, y, hxy⟩ := h₂
  exact ⟨u ++ x, y ++ v, by rw [← huv, ← hxy]; simp⟩

theorem strContains_concatAll {s : String} {L : List String} (h : s ∈ L) :
    strContains (concatAll L) s := by
  induction L with
  | nil => exact absurd h (List.not_mem_nil s)
  | cons a t ih =>
    rcases List.mem_cons.mp h with rfl | h2
    · exact strContains_append_left s (concatAll t) (strContains_self s)
    · exact strContains_append_right a (concatAll t) (ih h2)

theorem headerLine_in_caseBlock (i : ℕ) (c : RankedMatch) :
    strContains (caseBlock i c) (headerLine i c) := by
  unfold caseBlock
  exact strContains_append_left _ _ (strContains_append_left _ _
    (strContains_append_left _ _ (strContains_append_left _ _
      (strContains_self _))))

theorem lookup_eq_none_of_not_mem (a : String) (l : List (String × String))
    (h : a ∉ l.map Prod.fst) : l.lookup a = none := by
  induction l with
  | nil => rfl
  | cons p t ih =>
    obtain ⟨k, v⟩ := p
    simp only [List.map_cons, List.mem_cons] at h
    push_neg at h
    have hbeq : (a == k) = false := beq_eq_false_iff_ne.mpr h.1
    simp only [List.lookup, hbeq]
    exact ih h.2

/-- **C6, counterexample**: a well-formed single match whose case id `"SIM"`
also occurs in the fixed text of the block (`CASO SIMILAR`, the `✓ SIM`
markers, the trailer), so the output does not contain the match's case id
exactly once. -/
theorem formatter_exactly_once_counterexample :
    countOccs ("SIM").data (formatGuidance [sampleMatchSIM]).data ≠ 1 := by
  with_unfolding_all decide

/-- **C6, amended**: the formatter is total (a plain function on match
lists): `format([]) = ""`; for every match list the output contains, for
each match at rank `i`, its full header line — which carries the match's
case id and its similarity rendered as a percentage with one decimal place —
and any checklist key outside the fixed 12-key mapping is rendered with the
raw key as its label rather than failing. -/
theorem formatter_totality (ms : List RankedMatch) :
    formatGuidance [] = "" ∧
      (∀ p ∈ List.enumFrom 1 ms, strContains (formatGuidance ms) (headerLine p.1 p.2)) ∧
      (∀ crit : String, ∀ resp : Bool, crit ∉ checklist_mapping.map Prod.fst →
        checklistLine (crit, resp) =
          "  • " ++ crit ++ ": " ++ (if resp then "✓ SIM" else "✗ NÃO") ++ "\n") := by
  refine ⟨rfl, ?_, ?_⟩
  · intro p hp
    have hne : ms.isEmpty = false := by
      cases ms with
      | nil => simp [List.enumFrom] at hp
      | cons a t => rfl
    unfold formatGuidance
    rw [if_neg (by rw [hne]; exact Bool.false_ne_true)]
    apply strContains_append_left
    apply strContains_append_right
    exact strContains_trans
      (strContains_concatAll (List.mem_map_of_mem _ hp))
      (headerLine_in_caseBlock p.1 p.2)
  · intro crit resp hnot
    unfold checklistLine
    rw [lookup_eq_none_of_not_mem crit checklist_mapping hnot]
    rfl

/-- Witness for the amended C6. -/
theorem formatter_totality_witness :
    (formatGuidance [] = "" ∧
      strContains (formatGuidance [sampleMatchW]) (headerLine 1 sampleMatchW)) ∧
      checklistLine ("crit_x", true) =
        "  • " ++ "crit_x" ++ ": " ++ (if true then "✓ SIM" else "✗ NÃO") ++ "\n" :=
  ⟨⟨(formatter_totality [sampleMatchW]).1,
    (formatter_totality [sampleMatchW]).2.1 (1, sampleMatchW) (by with_unfolding_all decide)⟩,
    (formatter_totality [sampleMatchW]).2.2 ("crit_x") true (by decide)⟩

/-- **C9**: the spec's end-to-end example.  Ranking query `[0.9, 0.1]` with
`top_k = 1` against the two-entry example store returns exactly one match,
case `"A"`, with similarity within `0.001` of `0.994` (the exact model value
is `45000000000000 / 45276925690687 ≈ 0.9938837`, which renders as `99.4%`),
and formatting that result produces text containing `"ID A"`, `"99.4%"` and
`"75/81"`. -/
theorem end_to_end_example :
    find_similar_cases [9/10, 1/10] (some exampleStore) 1 =
        Except.ok [exampleTopMatch] ∧
      exampleTopMatch.case_id = "A" ∧
      |exampleTopMatch.similarity_score - 994/1000| < 1/1000 ∧
      strContains (formatGuidance [exampleTopMatch]) ("ID A") ∧
      strContains (formatGuidance [exampleTopMatch]) ("99.4%") ∧
      strContains (formatGuidance [exampleTopMatch]) ("75/81") := by
  refine ⟨by with_unfolding_all rfl, by with_unfolding_all rfl,
    by with_unfolding_all decide, by with_unfolding_all decide,
    by with_unfolding_all decide, by with_unfolding_all decide⟩
